import Mathlib

/-!
Verification of `passwordcheck_with_params.c`.

A shallow embedding of `check_password` (the PostgreSQL `check_password_hook`
installed by `_PG_init`) and of the constants and configuration variables it
reads, followed by theorems about it.

Conventions of the embedding:

* a `char` is a `Nat` (a byte, 0..255); a C string is the list of bytes of its
  buffer: the string ends before the first 0 byte, and a terminating 0 is
  implied at the end of the list;
* a C `int` is an `Int`; the one place where a value is narrowed to `int`
  (`int pwdlen = strlen(password)`) wraps modulo `2^32`;
* `ereport(ERROR, ...)` does not return: it ends the call with the reported
  error, which is the `Rejected` result here; reaching the end of the function
  is `Approved`;
* what the file takes from the host and from cracklib (`plain_crypt_verify`,
  `FascistCheck`, whether `USE_CRACKLIB` is defined) is a parameter, `Host`.
-/

namespace PasswordCheck

set_option linter.unusedVariables false

/-! ## C strings -/

/-- The bytes of a `char` buffer holding a C string. -/
abbrev CString := List Nat

/-- The characters of a C string: the bytes before the first 0 byte. -/
def cstr (s : CString) : List Nat := s.takeWhile (fun b => b != 0)

/-- C `strlen`: the number of bytes before the terminating 0. -/
def strlen : CString → Nat
  | [] => 0
  | b :: s => if b = 0 then 0 else strlen s + 1

/-- C `strchr(s, c) != NULL`: scan `s` up to and including its terminating 0
for the byte `c`; the terminator itself is found when `c` is 0. -/
def strchr : CString → Nat → Bool
  | [], c => c == 0
  | b :: s, c => if b = c then true else if b = 0 then false else strchr s c

/-- The `char` read by `s[i]`; the byte after the last one of the list is the
implied terminator. -/
def charAt (s : CString) (i : Nat) : Nat := s.getD i 0

/-- The value of a `size_t` after conversion to a 32-bit `int`. -/
def int_of_size_t (n : Nat) : Int :=
  if n % 2 ^ 32 < 2 ^ 31 then ((n % 2 ^ 32 : Nat) : Int) else ((n % 2 ^ 32 : Nat) : Int) - 2 ^ 32

/-- The bytes of an ASCII string literal, for writing inputs. -/
def ascii (s : String) : CString := s.toList.map Char.toNat

/-! ## Character classes (lines 35-40) -/

/-- The macro `UPPER_CASE_CHARS`, "ABCDEFGHIJKLMNOPQRSTUVWXYZ". -/
def UPPER_CASE_CHARS : CString :=
  [65, 66, 67, 68, 69, 70, 71, 72, 73, 74, 75, 76, 77, 78, 79, 80, 81, 82, 83, 84, 85, 86, 87,
   88, 89, 90]

/-- The macro `LOWER_CASE_CHARS`, "abcdefghijklmnopqrstuvwxyz". -/
def LOWER_CASE_CHARS : CString :=
  [97, 98, 99, 100, 101, 102, 103, 104, 105, 106, 107, 108, 109, 110, 111, 112, 113, 114, 115,
   116, 117, 118, 119, 120, 121, 122]

/-- The macro `DIGIT_CHARS`, "0123456789". -/
def DIGIT_CHARS : CString := [48, 49, 50, 51, 52, 53, 54, 55, 56, 57]

/-- The macro `SPECIAL_CHARS`: the bytes of the literal as the (UTF-8) source
file holds them, escapes resolved. The non-ASCII characters of the literal are
two bytes each: 194 167, 195 185, 194 181, 194 168, 194 163, 194 178, 195 169,
195 168, 195 167, 195 160, 194 176. -/
def SPECIAL_CHARS : CString :=
  [60, 62, 44, 63, 59, 46, 58, 47, 33,   -- < > , ? ; . : / !
   194, 167, 195, 185,                   -- section sign, u grave
   37, 42,                               -- % *
   194, 181,                             -- micro sign
   94,                                   -- ^
   194, 168,                             -- diaeresis
   36,                                   -- $
   194, 163, 194, 178,                   -- pound sign, superscript two
   38,                                   -- &
   195, 169,                             -- e acute
   126, 34, 35, 39, 123, 40, 91, 45, 124, -- ~ " # quote { ( [ - |
   195, 168,                             -- e grave
   96, 95, 92,                           -- grave accent, _ and backslash
   195, 167,                             -- c cedilla
   94,                                   -- ^
   195, 160,                             -- a grave
   64, 41, 93,                           -- @ ) ]
   194, 176,                             -- degree sign
   61, 125, 43]                          -- = } +

/-! ## Configuration (lines 43-124, registered at lines 296-444) -/

/-- The GUC variables of the module: one value of each per evaluation. -/
structure PolicyConfig where
  pwchkMinLength : Int
  pwchkMaxLength : Int
  pwchkMinLowerChar : Int
  pwchkMinUpperChar : Int
  pwchkMinDigitChar : Int
  pwchkMinSpecialChar : Int
  pwchkDisallowedChars : CString
  pwchkUseCracklib : Bool
  deriving DecidableEq, Repr

/-- The boot values `_PG_init` registers with `DefineCustom*Variable`. -/
def bootConfig : PolicyConfig :=
  { pwchkMinLength := 8
    pwchkMaxLength := 32
    pwchkMinLowerChar := 1
    pwchkMinUpperChar := 1
    pwchkMinDigitChar := 1
    pwchkMinSpecialChar := 1
    pwchkDisallowedChars := []
    pwchkUseCracklib := false }

/-- The ranges `_PG_init` registers: lengths 0..128, class minimums 0..64. -/
def registeredRange (cfg : PolicyConfig) : Prop :=
  (0 ≤ cfg.pwchkMinLength ∧ cfg.pwchkMinLength ≤ 128) ∧
  (0 ≤ cfg.pwchkMaxLength ∧ cfg.pwchkMaxLength ≤ 128) ∧
  (0 ≤ cfg.pwchkMinLowerChar ∧ cfg.pwchkMinLowerChar ≤ 64) ∧
  (0 ≤ cfg.pwchkMinUpperChar ∧ cfg.pwchkMinUpperChar ≤ 64) ∧
  (0 ≤ cfg.pwchkMinDigitChar ∧ cfg.pwchkMinDigitChar ≤ 64) ∧
  (0 ≤ cfg.pwchkMinSpecialChar ∧ cfg.pwchkMinSpecialChar ≤ 64)

instance (cfg : PolicyConfig) : Decidable (registeredRange cfg) := by
  unfold registeredRange; infer_instance

/-! ## The host and the optional library -/

/-- The enumeration `PasswordType` of the host (`libpq/crypt.h`). -/
inductive PasswordType where
  | PASSWORD_TYPE_PLAINTEXT
  | PASSWORD_TYPE_MD5
  | PASSWORD_TYPE_SCRAM_SHA_256
  deriving DecidableEq, Repr

/-- What `check_password` calls outside the file.
`plain_crypt_verify role shadow_pass client_pass` is true when the host's
function returns `STATUS_OK`; `USE_CRACKLIB` tells whether the module is
compiled with cracklib; `FascistCheck password` is cracklib's answer for the
compiled-in dictionary path: a reason, or nothing (`NULL`). -/
structure Host where
  plain_crypt_verify : CString → CString → CString → Bool
  USE_CRACKLIB : Bool
  FascistCheck : CString → Option CString

/-! ## Results -/

/-- The error `check_password` reports, one constructor per `ereport` of the
function, with the value its message is formatted with. -/
inductive RuleViolation where
  /-- Message: "password must not equal user name" -/
  | PasswordEqualsUsername
  /-- Message: "password is too short, it must be at least %d characters long" -/
  | TooShort (min : Int)
  /-- Message: "password is too long, it must not be longer than %d characters" -/
  | TooLong (max : Int)
  /-- Message: "password must contain at least %d lower-case characters" -/
  | TooFewLower (min : Int)
  /-- Message: "password must contain at least %d upper-case characters" -/
  | TooFewUpper (min : Int)
  /-- Message: "password must contain at least %d digits" -/
  | TooFewDigits (min : Int)
  /-- Message: "password must contain at least %d special characters" -/
  | TooFewSpecial (min : Int)
  /-- Message: "password must not contain any of the following characters:%s" -/
  | ContainsDisallowed (chars : CString)
  /-- Message: "password is easily cracked: %s" -/
  | WeakOrDictionary (reason : CString)
  deriving DecidableEq, Repr

/-- How a call of `check_password` ends: it returns, or it reports an error. -/
inductive EvaluationResult where
  | Approved
  | Rejected (reason : RuleViolation)
  deriving DecidableEq, Repr

/-! ## check_password (lines 149-284) -/

/-- The five counters of the classification loop. -/
structure Counters where
  num_upper : Int
  num_lower : Int
  num_digit : Int
  num_special : Int
  num_disallowed : Int
  deriving DecidableEq, Repr

/-- Lines 207-211: all counters start at 0. -/
def Counters.zero : Counters :=
  { num_upper := 0, num_lower := 0, num_digit := 0, num_special := 0, num_disallowed := 0 }

/-- The body of the loop (lines 215-237) for the character `ch`. -/
def classify_char (disallowed : CString) (ch : Nat) (c : Counters) : Counters :=
  { num_lower := if strchr LOWER_CASE_CHARS ch then c.num_lower + 1 else c.num_lower
    num_upper := if strchr UPPER_CASE_CHARS ch then c.num_upper + 1 else c.num_upper
    num_digit := if strchr DIGIT_CHARS ch then c.num_digit + 1 else c.num_digit
    num_special := if strchr SPECIAL_CHARS ch then c.num_special + 1 else c.num_special
    num_disallowed := if strchr disallowed ch then c.num_disallowed + 1 else c.num_disallowed }

/-- The loop `for (i = 0; i < pwdlen; i++)` (line 213), from index `i` with
`n` iterations left. -/
def classify_loop (disallowed password : CString) : Nat → Nat → Counters → Counters
  | 0, _, c => c
  | n + 1, i, c =>
    classify_loop disallowed password n (i + 1) (classify_char disallowed (charAt password i) c)

open EvaluationResult RuleViolation PasswordType

/-- The function `check_password`. The expiry arguments are not read. -/
def check_password (host : Host) (cfg : PolicyConfig) (username shadow_pass : CString)
    (password_type : PasswordType) (validuntil_time : Nat) (validuntil_null : Bool) :
    EvaluationResult :=
  if password_type ≠ PASSWORD_TYPE_PLAINTEXT then
    if host.plain_crypt_verify username shadow_pass username then
      Rejected PasswordEqualsUsername
    else Approved
  else
    let password := shadow_pass
    let pwdlen : Int := int_of_size_t (strlen password)
    if pwdlen < cfg.pwchkMinLength then Rejected (TooShort cfg.pwchkMinLength)
    else if pwdlen > cfg.pwchkMaxLength then Rejected (TooLong cfg.pwchkMaxLength)
    else
      let c := classify_loop cfg.pwchkDisallowedChars password pwdlen.toNat 0 Counters.zero
      if c.num_lower < cfg.pwchkMinLowerChar then Rejected (TooFewLower cfg.pwchkMinLowerChar)
      else if c.num_upper < cfg.pwchkMinUpperChar then
        Rejected (TooFewUpper cfg.pwchkMinUpperChar)
      else if c.num_digit < cfg.pwchkMinDigitChar then
        Rejected (TooFewDigits cfg.pwchkMinDigitChar)
      else if c.num_special < cfg.pwchkMinSpecialChar then
        Rejected (TooFewSpecial cfg.pwchkMinSpecialChar)
      else if c.num_disallowed > 0 then Rejected (ContainsDisallowed cfg.pwchkDisallowedChars)
      else if host.USE_CRACKLIB && cfg.pwchkUseCracklib then
        match host.FascistCheck password with
        | some cracklib_reason => Rejected (WeakOrDictionary cracklib_reason)
        | none => Approved
      else Approved

/-- A host built without cracklib whose `plain_crypt_verify` never matches. -/
def plainHost : Host :=
  { plain_crypt_verify := fun _ _ _ => false
    USE_CRACKLIB := false
    FascistCheck := fun _ => none }

/-! ## The rules as the specification words them -/

/-- The specification's `num_X`: the number of positions `i < len(p)` whose
byte `p[i]` occurs in the class string `cls`. -/
def num_in_class (cls password : CString) : Nat :=
  ((List.range (strlen password)).filter
    (fun i => decide (charAt password i ∈ cstr cls))).length

/-- Rules 1, 2 and 4-8 of the specification's plaintext path, in its order:
what each requires of the password, and the rejection it gives otherwise
(rule 3 is the counting pass, which rejects nothing). -/
def spec_rules (cfg : PolicyConfig) (password : CString) : List (Bool × RuleViolation) :=
  [ (decide (cfg.pwchkMinLength ≤ (strlen password : Int)), TooShort cfg.pwchkMinLength),
    (decide ((strlen password : Int) ≤ cfg.pwchkMaxLength), TooLong cfg.pwchkMaxLength),
    (decide (cfg.pwchkMinLowerChar ≤ (num_in_class LOWER_CASE_CHARS password : Int)),
      TooFewLower cfg.pwchkMinLowerChar),
    (decide (cfg.pwchkMinUpperChar ≤ (num_in_class UPPER_CASE_CHARS password : Int)),
      TooFewUpper cfg.pwchkMinUpperChar),
    (decide (cfg.pwchkMinDigitChar ≤ (num_in_class DIGIT_CHARS password : Int)),
      TooFewDigits cfg.pwchkMinDigitChar),
    (decide (cfg.pwchkMinSpecialChar ≤ (num_in_class SPECIAL_CHARS password : Int)),
      TooFewSpecial cfg.pwchkMinSpecialChar),
    (decide (num_in_class cfg.pwchkDisallowedChars password = 0),
      ContainsDisallowed cfg.pwchkDisallowedChars) ]

/-- The rejection of the first rule of the list that fails, if one does. -/
def first_failure (rules : List (Bool × RuleViolation)) : Option RuleViolation :=
  (rules.find? (fun r => !r.1)).map (fun r => r.2)

/-- Rule 9 of the specification: the oracle's verdict, asked only when the
library is compiled in and the flag is set. -/
def oracle_step (host : Host) (cfg : PolicyConfig) (password : CString) : EvaluationResult :=
  if host.USE_CRACKLIB = true ∧ cfg.pwchkUseCracklib = true then
    match host.FascistCheck password with
    | some reason => EvaluationResult.Rejected (RuleViolation.WeakOrDictionary reason)
    | none => EvaluationResult.Approved
  else EvaluationResult.Approved

/-- The number of positions `j` with `i ≤ j < i + n` whose character satisfies `q`. -/
def hits (q : Nat → Bool) (password : CString) (i n : Nat) : Nat :=
  (List.range' i n).countP (fun j => q (charAt password j))

/-- The outcome of rules 1-8 of the specification alone: the rejection of the
first rule that fails, approval when none does. -/
def rules_1_to_8 (cfg : PolicyConfig) (password : CString) : EvaluationResult :=
  match first_failure (spec_rules cfg password) with
  | some v => Rejected v
  | none => Approved

/-- The counters `check_password` holds after its loop (lines 207-239), for the
password it is given. -/
def counters_after_loop (cfg : PolicyConfig) (password : CString) : Counters :=
  classify_loop cfg.pwchkDisallowedChars password (int_of_size_t (strlen password)).toNat 0
    Counters.zero

/-! ## Module load (lines 43-124 and 292-449) -/

/-- The global state of the module: the GUC variables, and whether
`check_password_hook` points to `check_password`. -/
structure ModuleState where
  vars : PolicyConfig
  check_password_hook : Bool
  deriving DecidableEq, Repr

/-- The state the module is loaded in, before `_PG_init` runs: the C
initialisers of the variables (lines 50-124), and no hook. -/
def loaded : ModuleState :=
  { vars :=
      { pwchkMinLength := 8
        pwchkMaxLength := 128
        pwchkMinLowerChar := 1
        pwchkMinUpperChar := 1
        pwchkMinDigitChar := 1
        pwchkMinSpecialChar := 1
        pwchkDisallowedChars := []
        pwchkUseCracklib := false }
    check_password_hook := false }

/-- The registration calls of the host, which `_PG_init` makes and the
repository does not hold: each gives the value the registered variable holds
after the call, from the boot value (and the range) it is registered with. -/
structure GucHost where
  DefineCustomIntVariable : (bootValue minValue maxValue : Int) → Int
  DefineCustomStringVariable : (bootValue : CString) → CString
  DefineCustomBoolVariable : (bootValue : Bool) → Bool

/-- The operator has set nothing: registration leaves each variable at the boot
value it is registered with. -/
def GucHost.nothingSet (g : GucHost) : Prop :=
  (∀ bootValue minValue maxValue,
    g.DefineCustomIntVariable bootValue minValue maxValue = bootValue) ∧
  (∀ bootValue, g.DefineCustomStringVariable bootValue = bootValue) ∧
  (∀ bootValue, g.DefineCustomBoolVariable bootValue = bootValue)

/-- A host in which no setting of the module is made. -/
def untouchedGuc : GucHost :=
  { DefineCustomIntVariable := fun bootValue _ _ => bootValue
    DefineCustomStringVariable := fun bootValue => bootValue
    DefineCustomBoolVariable := fun bootValue => bootValue }

/-- The function `_PG_init`: the eight registrations in their order, then the
installation of the hook (line 448). -/
def _PG_init (g : GucHost) (s : ModuleState) : ModuleState :=
  let v := s.vars
  let v := { v with pwchkMinLength := g.DefineCustomIntVariable 8 0 128 }
  let v := { v with pwchkMaxLength := g.DefineCustomIntVariable 32 0 128 }
  let v := { v with pwchkMinLowerChar := g.DefineCustomIntVariable 1 0 64 }
  let v := { v with pwchkMinUpperChar := g.DefineCustomIntVariable 1 0 64 }
  let v := { v with pwchkMinDigitChar := g.DefineCustomIntVariable 1 0 64 }
  let v := { v with pwchkMinSpecialChar := g.DefineCustomIntVariable 1 0 64 }
  let v := { v with pwchkDisallowedChars := g.DefineCustomStringVariable [] }
  let v := { v with pwchkUseCracklib := g.DefineCustomBoolVariable false }
  { vars := v, check_password_hook := true }

/-- A call of the host through `check_password_hook`: nothing happens while the
hook is not installed; once it is, `check_password` runs on the current values
of the variables. -/
def call_hook (s : ModuleState) (host : Host) (username shadow_pass : CString)
    (password_type : PasswordType) (validuntil_time : Nat) (validuntil_null : Bool) :
    Option EvaluationResult :=
  if s.check_password_hook then
    some (check_password host s.vars username shadow_pass password_type validuntil_time
      validuntil_null)
  else none

/-! ## Text in UTF-8 -/

/-- The UTF-8 bytes of the code point `c`. -/
def utf8_bytes (c : Nat) : List Nat :=
  if c < 128 then [c]
  else if c < 2048 then [192 + c / 64, 128 + c % 64]
  else if c < 65536 then [224 + c / 4096, 128 + c / 64 % 64, 128 + c % 64]
  else [240 + c / 262144, 128 + c / 4096 % 64, 128 + c / 64 % 64, 128 + c % 64]

/-- The bytes of a text in UTF-8, for writing inputs. -/
def utf8 (s : String) : CString :=
  s.toList.foldr (fun c bytes => utf8_bytes c.toNat ++ bytes) []

/-- The number of characters of a text. -/
def text_length (s : String) : Nat := s.toList.length

/-- The number of characters of a text that satisfy `q`. -/
def text_count (q : Char → Bool) (s : String) : Nat := s.toList.countP q

/-- The special set as the comment of line 97 lists it, one code point per
listed character (the eleven non-ASCII ones are 167, 249, 181, 168, 163, 178,
233, 232, 231, 224 and 176). -/
def special_set : List Nat :=
  [60, 62, 44, 63, 59, 46, 58, 47, 33, 167, 249, 37, 42, 181, 94, 168, 36, 163, 178, 38, 233,
   126, 34, 35, 39, 123, 40, 91, 45, 124, 232, 96, 95, 92, 231, 94, 224, 64, 41, 93, 176, 61,
   125, 43]

/-- Whether a character is one of the listed special characters. -/
def is_listed_special (c : Char) : Bool := decide (c.toNat ∈ special_set)

/-! ## Hosts and configurations used as concrete inputs -/

/-- A host built with cracklib. Its `plain_crypt_verify` matches when the
stored form is the candidate itself, and its `FascistCheck` knows one
password, "Password1!". -/
def dictHost : Host :=
  { plain_crypt_verify := fun _ shadow_pass client_pass => decide (shadow_pass = client_pass)
    USE_CRACKLIB := true
    FascistCheck := fun password =>
      if password = ascii "Password1!" then some (ascii "it is based on a dictionary word")
      else none }

/-- The registered defaults with `passwordcheck.min_length = 9`. -/
def strictConfig : PolicyConfig := { bootConfig with pwchkMinLength := 9 }

/-- The registered defaults with `passwordcheck.max_length = 4`. -/
def invertedConfig : PolicyConfig := { bootConfig with pwchkMaxLength := 4 }

/-- The four class minimums at 64 and `passwordcheck.max_length = 128`. -/
def greedyConfig : PolicyConfig :=
  { bootConfig with
    pwchkMaxLength := 128
    pwchkMinLowerChar := 64
    pwchkMinUpperChar := 64
    pwchkMinDigitChar := 64
    pwchkMinSpecialChar := 64 }

/-- The registered defaults with `passwordcheck.disallowed_chars = ' '`. -/
def spaceConfig : PolicyConfig := { bootConfig with pwchkDisallowedChars := ascii " " }

/-- The registered defaults with `passwordcheck.disallowed_chars = '!'`. -/
def bangConfig : PolicyConfig := { bootConfig with pwchkDisallowedChars := ascii "!" }

/-- The registered defaults with `passwordcheck.use_cracklib = on`. -/
def cracklibConfig : PolicyConfig := { bootConfig with pwchkUseCracklib := true }

/-! ## Lemmas on C strings -/

theorem strlen_eq_length_cstr (s : CString) : strlen s = (cstr s).length := by
  induction s with
  | nil => rfl
  | cons b s ih =>
    by_cases hb : b = 0
    · simp [strlen, cstr, hb]
    · simp [strlen, cstr, hb, List.takeWhile_cons] at ih ⊢
      exact ih

theorem strlen_le_length (s : CString) : strlen s ≤ s.length := by
  induction s with
  | nil => simp [strlen]
  | cons b s ih =>
    by_cases hb : b = 0
    · simp [strlen, hb]
    · simp [strlen, hb]; exact ih

theorem strchr_iff (s : CString) (c : Nat) : strchr s c = true ↔ c ∈ cstr s ∨ c = 0 := by
  induction s with
  | nil => simp [strchr, cstr]
  | cons b s ih =>
    by_cases hbc : b = c
    · subst hbc
      by_cases hb : b = 0
      · simp [strchr, hb]
      · simp [strchr, cstr, hb, List.takeWhile_cons]
    · by_cases hb : b = 0
      · subst hb
        have hc : c ≠ 0 := fun h => hbc h.symm
        simp [strchr, cstr, hbc, hc, List.takeWhile_cons]
      · have hcb : c ≠ b := fun h => hbc h.symm
        simp [strchr, cstr, hbc, hb, hcb, List.takeWhile_cons] at ih ⊢
        exact ih

theorem charAt_cstr (s : CString) (i : Nat) (h : i < strlen s) :
    charAt s i = (cstr s).getD i 0 := by
  induction s generalizing i with
  | nil => simp [strlen] at h
  | cons b s ih =>
    by_cases hb : b = 0
    · simp [strlen, hb] at h
    · cases i with
      | zero => simp [charAt, cstr, hb, List.takeWhile_cons]
      | succ i =>
        have hi : i < strlen s := by simpa [strlen, hb] using h
        have := ih i hi
        simp [charAt, cstr, hb, List.takeWhile_cons] at this ⊢
        exact this

theorem charAt_ne_zero (s : CString) (i : Nat) (h : i < strlen s) : charAt s i ≠ 0 := by
  induction s generalizing i with
  | nil => simp [strlen] at h
  | cons b s ih =>
    by_cases hb : b = 0
    · simp [strlen, hb] at h
    · cases i with
      | zero => simpa [charAt] using hb
      | succ i =>
        have hi : i < strlen s := by simpa [strlen, hb] using h
        have := ih i hi
        simpa [charAt] using this

theorem int_of_size_t_of_lt (n : Nat) (h : n < 2 ^ 31) : int_of_size_t n = (n : Int) := by
  have h1 : n % 2 ^ 32 = n := Nat.mod_eq_of_lt (by omega)
  unfold int_of_size_t
  rw [h1, if_pos h]

/-! ## The classification loop -/

theorem hits_succ (q : Nat → Bool) (password : CString) (i n : Nat) :
    hits q password i (n + 1)
      = (if q (charAt password i) then 1 else 0) + hits q password (i + 1) n := by
  unfold hits
  rw [List.range'_succ, List.countP_cons]
  omega

theorem classify_loop_eq (dis p : CString) (n i : Nat) (c : Counters) :
    classify_loop dis p n i c =
      { num_upper := c.num_upper + hits (strchr UPPER_CASE_CHARS) p i n
        num_lower := c.num_lower + hits (strchr LOWER_CASE_CHARS) p i n
        num_digit := c.num_digit + hits (strchr DIGIT_CHARS) p i n
        num_special := c.num_special + hits (strchr SPECIAL_CHARS) p i n
        num_disallowed := c.num_disallowed + hits (strchr dis) p i n } := by
  induction n generalizing i c with
  | zero => simp [classify_loop, hits]
  | succ n ih =>
    rw [classify_loop, ih]
    simp only [hits_succ, classify_char]
    congr 1 <;> split_ifs <;> push_cast <;> ring

theorem hits_strchr (cls p : CString) :
    hits (strchr cls) p 0 (strlen p) = num_in_class cls p := by
  unfold hits num_in_class
  rw [← List.range_eq_range', List.countP_eq_length_filter]
  congr 1
  apply List.filter_congr
  intro j hj
  have hj' : j < strlen p := List.mem_range.mp hj
  have hne := charAt_ne_zero p j hj'
  rw [Bool.eq_iff_iff, strchr_iff]
  simp [hne]

/-- What the loop of `check_password` leaves in the counters when it runs over
the whole password. -/
theorem classify_loop_whole (dis p : CString) :
    classify_loop dis p (strlen p) 0 Counters.zero =
      { num_upper := num_in_class UPPER_CASE_CHARS p
        num_lower := num_in_class LOWER_CASE_CHARS p
        num_digit := num_in_class DIGIT_CHARS p
        num_special := num_in_class SPECIAL_CHARS p
        num_disallowed := num_in_class dis p } := by
  rw [classify_loop_eq]
  simp [Counters.zero, hits_strchr]

/-! ## The plaintext path against the rules of the specification -/

/-- On a password whose length fits an `int`, the plaintext path of
`check_password` gives the rejection of the first failing rule, and the
oracle's verdict when no rule fails. -/
theorem check_password_plaintext (host : Host) (cfg : PolicyConfig)
    (username password : CString) (vt : Nat) (vn : Bool) (hlen : strlen password < 2 ^ 31) :
    check_password host cfg username password PasswordType.PASSWORD_TYPE_PLAINTEXT vt vn =
      match first_failure (spec_rules cfg password) with
      | some v => EvaluationResult.Rejected v
      | none => oracle_step host cfg password := by
  unfold check_password
  simp only [ne_eq, not_true_eq_false, if_false, int_of_size_t_of_lt _ hlen, Int.toNat_ofNat,
    classify_loop_whole, spec_rules, first_failure, oracle_step, List.find?_cons]
  by_cases h1 : cfg.pwchkMinLength ≤ (strlen password : Int)
  swap
  · have h1n : (strlen password : Int) < cfg.pwchkMinLength := by omega
    simp [h1, h1n]
  have h1n : ¬ (strlen password : Int) < cfg.pwchkMinLength := by omega
  by_cases h2 : (strlen password : Int) ≤ cfg.pwchkMaxLength
  swap
  · have h2n : (strlen password : Int) > cfg.pwchkMaxLength := by omega
    simp [h1, h1n, h2, h2n]
  have h2n : ¬ (strlen password : Int) > cfg.pwchkMaxLength := by omega
  by_cases h3 : cfg.pwchkMinLowerChar ≤ (num_in_class LOWER_CASE_CHARS password : Int)
  swap
  · have h3n : (num_in_class LOWER_CASE_CHARS password : Int) < cfg.pwchkMinLowerChar := by omega
    simp [h1, h1n, h2, h2n, h3, h3n]
  have h3n : ¬ (num_in_class LOWER_CASE_CHARS password : Int) < cfg.pwchkMinLowerChar := by omega
  by_cases h4 : cfg.pwchkMinUpperChar ≤ (num_in_class UPPER_CASE_CHARS password : Int)
  swap
  · have h4n : (num_in_class UPPER_CASE_CHARS password : Int) < cfg.pwchkMinUpperChar := by omega
    simp [h1, h1n, h2, h2n, h3, h3n, h4, h4n]
  have h4n : ¬ (num_in_class UPPER_CASE_CHARS password : Int) < cfg.pwchkMinUpperChar := by omega
  by_cases h5 : cfg.pwchkMinDigitChar ≤ (num_in_class DIGIT_CHARS password : Int)
  swap
  · have h5n : (num_in_class DIGIT_CHARS password : Int) < cfg.pwchkMinDigitChar := by omega
    simp [h1, h1n, h2, h2n, h3, h3n, h4, h4n, h5, h5n]
  have h5n : ¬ (num_in_class DIGIT_CHARS password : Int) < cfg.pwchkMinDigitChar := by omega
  by_cases h6 : cfg.pwchkMinSpecialChar ≤ (num_in_class SPECIAL_CHARS password : Int)
  swap
  · have h6n : (num_in_class SPECIAL_CHARS password : Int) < cfg.pwchkMinSpecialChar := by omega
    simp [h1, h1n, h2, h2n, h3, h3n, h4, h4n, h5, h5n, h6, h6n]
  have h6n : ¬ (num_in_class SPECIAL_CHARS password : Int) < cfg.pwchkMinSpecialChar := by omega
  by_cases h7 : num_in_class cfg.pwchkDisallowedChars password = 0
  swap
  · have h7n : (num_in_class cfg.pwchkDisallowedChars password : Int) > 0 := by omega
    simp [h1, h1n, h2, h2n, h3, h3n, h4, h4n, h5, h5n, h6, h6n, h7, h7n]
  simp [h1, h1n, h2, h2n, h3, h3n, h4, h4n, h5, h5n, h6, h6n, h7]

/-- No rule of the specification fails exactly when every requirement holds. -/
theorem first_failure_eq_none_iff (cfg : PolicyConfig) (password : CString) :
    first_failure (spec_rules cfg password) = none ↔
      (cfg.pwchkMinLength ≤ (strlen password : Int) ∧
       (strlen password : Int) ≤ cfg.pwchkMaxLength ∧
       cfg.pwchkMinLowerChar ≤ (num_in_class LOWER_CASE_CHARS password : Int) ∧
       cfg.pwchkMinUpperChar ≤ (num_in_class UPPER_CASE_CHARS password : Int) ∧
       cfg.pwchkMinDigitChar ≤ (num_in_class DIGIT_CHARS password : Int) ∧
       cfg.pwchkMinSpecialChar ≤ (num_in_class SPECIAL_CHARS password : Int) ∧
       num_in_class cfg.pwchkDisallowedChars password = 0) := by
  simp only [first_failure, spec_rules, Option.map_eq_none', List.find?_eq_none]
  simp

theorem oracle_step_off (host : Host) (cfg : PolicyConfig) (password : CString)
    (h : host.USE_CRACKLIB = false ∨ cfg.pwchkUseCracklib = false) :
    oracle_step host cfg password = EvaluationResult.Approved := by
  unfold oracle_step
  rcases h with h | h <;> simp [h]

/-- When the plaintext path approves, stated on the values the code itself
computes (no bound on the length of the password is assumed). -/
theorem check_password_plaintext_approved_iff (host : Host) (cfg : PolicyConfig)
    (username password : CString) (vt : Nat) (vn : Bool) :
    check_password host cfg username password PasswordType.PASSWORD_TYPE_PLAINTEXT vt vn
        = EvaluationResult.Approved ↔
      (cfg.pwchkMinLength ≤ int_of_size_t (strlen password) ∧
       int_of_size_t (strlen password) ≤ cfg.pwchkMaxLength ∧
       cfg.pwchkMinLowerChar ≤ (classify_loop cfg.pwchkDisallowedChars password
          (int_of_size_t (strlen password)).toNat 0 Counters.zero).num_lower ∧
       cfg.pwchkMinUpperChar ≤ (classify_loop cfg.pwchkDisallowedChars password
          (int_of_size_t (strlen password)).toNat 0 Counters.zero).num_upper ∧
       cfg.pwchkMinDigitChar ≤ (classify_loop cfg.pwchkDisallowedChars password
          (int_of_size_t (strlen password)).toNat 0 Counters.zero).num_digit ∧
       cfg.pwchkMinSpecialChar ≤ (classify_loop cfg.pwchkDisallowedChars password
          (int_of_size_t (strlen password)).toNat 0 Counters.zero).num_special ∧
       (classify_loop cfg.pwchkDisallowedChars password
          (int_of_size_t (strlen password)).toNat 0 Counters.zero).num_disallowed ≤ 0 ∧
       oracle_step host cfg password = EvaluationResult.Approved) := by
  unfold check_password oracle_step
  simp only [ne_eq, not_true_eq_false, if_false]
  generalize int_of_size_t (strlen password) = pwdlen
  generalize classify_loop cfg.pwchkDisallowedChars password pwdlen.toNat 0 Counters.zero = c
  by_cases h1 : pwdlen < cfg.pwchkMinLength
  · simp [h1]
  by_cases h2 : pwdlen > cfg.pwchkMaxLength
  · simp [h1, h2]
  by_cases h3 : c.num_lower < cfg.pwchkMinLowerChar
  · simp [h1, h2, h3]
  by_cases h4 : c.num_upper < cfg.pwchkMinUpperChar
  · simp [h1, h2, h3, h4]
  by_cases h5 : c.num_digit < cfg.pwchkMinDigitChar
  · simp [h1, h2, h3, h4, h5]
  by_cases h6 : c.num_special < cfg.pwchkMinSpecialChar
  · simp [h1, h2, h3, h4, h5, h6]
  by_cases h7 : c.num_disallowed > 0
  · simp [h1, h2, h3, h4, h5, h6, h7]
  have g1 : cfg.pwchkMinLength ≤ pwdlen := by omega
  have g2 : pwdlen ≤ cfg.pwchkMaxLength := by omega
  have g3 : cfg.pwchkMinLowerChar ≤ c.num_lower := by omega
  have g4 : cfg.pwchkMinUpperChar ≤ c.num_upper := by omega
  have g5 : cfg.pwchkMinDigitChar ≤ c.num_digit := by omega
  have g6 : cfg.pwchkMinSpecialChar ≤ c.num_special := by omega
  have g7 : c.num_disallowed ≤ 0 := by omega
  simp [h1, h2, h3, h4, h5, h6, h7, g1, g2, g3, g4, g5, g6, g7]

/-! ## Counting over the characters of the password -/

theorem countP_range_getD (q : Nat → Bool) (l : List Nat) :
    (List.range l.length).countP (fun i => q (l.getD i 0)) = l.countP q := by
  induction l with
  | nil => simp
  | cons a l ih =>
    rw [List.length_cons, List.range_succ_eq_map, List.countP_cons, List.countP_map,
      List.countP_cons]
    have hfun : ((fun i => q ((a :: l).getD i 0)) ∘ Nat.succ) = fun i => q (l.getD i 0) := by
      funext i
      simp
    rw [hfun, ih]
    simp

/-- The count of the specification is a count over the characters of the
password, so it does not depend on their order. -/
theorem num_in_class_eq_countP (cls p : CString) :
    num_in_class cls p = (cstr p).countP (fun b => decide (b ∈ cstr cls)) := by
  unfold num_in_class
  rw [← countP_range_getD, ← strlen_eq_length_cstr, ← List.countP_eq_length_filter]
  apply List.countP_congr
  intro j hj
  rw [charAt_cstr p j (List.mem_range.mp hj)]

theorem strlen_perm (p q : CString) (h : (cstr q).Perm (cstr p)) : strlen q = strlen p := by
  rw [strlen_eq_length_cstr, strlen_eq_length_cstr, h.length_eq]

theorem num_in_class_perm (cls p q : CString) (h : (cstr q).Perm (cstr p)) :
    num_in_class cls q = num_in_class cls p := by
  rw [num_in_class_eq_countP, num_in_class_eq_countP, h.countP_eq]

theorem spec_rules_perm (cfg : PolicyConfig) (p q : CString) (h : (cstr q).Perm (cstr p)) :
    spec_rules cfg q = spec_rules cfg p := by
  simp only [spec_rules, strlen_perm p q h, num_in_class_perm _ p q h]

theorem oracle_step_ne_disallowed (host : Host) (cfg : PolicyConfig) (password d : CString) :
    oracle_step host cfg password
      ≠ EvaluationResult.Rejected (RuleViolation.ContainsDisallowed d) := by
  unfold oracle_step
  split_ifs
  · cases host.FascistCheck password <;> simp
  · simp

theorem num_in_class_pos (cls p : CString) (i : Nat) (hi : i < strlen p)
    (hmem : charAt p i ∈ cstr cls) : num_in_class cls p ≠ 0 := by
  unfold num_in_class
  have hin : i ∈ (List.range (strlen p)).filter (fun i => decide (charAt p i ∈ cstr cls)) := by
    rw [List.mem_filter]
    exact ⟨List.mem_range.mpr hi, by simpa using hmem⟩
  exact Nat.pos_iff_ne_zero.mp (List.length_pos_of_mem hin)

/-- The plaintext path never reports the error of the encrypted path. -/
theorem check_password_plaintext_ne_equals_username (host : Host) (cfg : PolicyConfig)
    (username password : CString) (vt : Nat) (vn : Bool) :
    check_password host cfg username password PasswordType.PASSWORD_TYPE_PLAINTEXT vt vn
      ≠ EvaluationResult.Rejected RuleViolation.PasswordEqualsUsername := by
  unfold check_password
  simp only [ne_eq, not_true_eq_false, if_false]
  split_ifs
  all_goals first
    | simp
    | (cases host.FascistCheck password <;> simp)

/-! ## The claims -/

/-- C1: on the plaintext path with the oracle disabled (not compiled in, or
the flag off), a password whose length fits an `int` is approved if and only
if `min_length <= len <= max_length`, each class count reaches its minimum and
no position holds a disallowed character, where `len` is `strlen` and each
count is the number of positions whose byte occurs in the class string. -/
theorem plaintext_approved_iff (host : Host) (cfg : PolicyConfig) (username password : CString)
    (vt : Nat) (vn : Bool) (hlen : strlen password < 2 ^ 31)
    (horacle : host.USE_CRACKLIB = false ∨ cfg.pwchkUseCracklib = false) :
    check_password host cfg username password PASSWORD_TYPE_PLAINTEXT vt vn = Approved ↔
      (cfg.pwchkMinLength ≤ (strlen password : Int) ∧
       (strlen password : Int) ≤ cfg.pwchkMaxLength ∧
       (num_in_class LOWER_CASE_CHARS password : Int) ≥ cfg.pwchkMinLowerChar ∧
       (num_in_class UPPER_CASE_CHARS password : Int) ≥ cfg.pwchkMinUpperChar ∧
       (num_in_class DIGIT_CHARS password : Int) ≥ cfg.pwchkMinDigitChar ∧
       (num_in_class SPECIAL_CHARS password : Int) ≥ cfg.pwchkMinSpecialChar ∧
       num_in_class cfg.pwchkDisallowedChars password = 0) := by
  rw [check_password_plaintext host cfg username password vt vn hlen,
    oracle_step_off host cfg password horacle]
  simp only [ge_iff_le, ← first_failure_eq_none_iff]
  cases first_failure (spec_rules cfg password) <;> simp

/-- C1, witness: under the registered defaults "Ab3!defg" is approved. -/
theorem plaintext_approved_iff_witness :
    (strlen (ascii "Ab3!defg") < 2 ^ 31 ∧
      (plainHost.USE_CRACKLIB = false ∨ bootConfig.pwchkUseCracklib = false)) ∧
    check_password plainHost bootConfig (ascii "alice") (ascii "Ab3!defg")
      PASSWORD_TYPE_PLAINTEXT 0 true = Approved :=
  ⟨⟨by decide, Or.inl rfl⟩,
   (plaintext_approved_iff plainHost bootConfig (ascii "alice") (ascii "Ab3!defg") 0 true
      (by decide) (Or.inl rfl)).mpr (by decide)⟩

/-- C2: on the plaintext path, for a password whose length fits an `int`, when
some rule among 1-8 fails the result is the rejection of the first failing
rule in the order TooShort, TooLong, TooFewLower, TooFewUpper, TooFewDigits,
TooFewSpecial, ContainsDisallowed, carrying that rule's configured parameter;
this holds whatever the host and the oracle are. -/
theorem first_failure_reported (host : Host) (cfg : PolicyConfig) (username password : CString)
    (vt : Nat) (vn : Bool) (v : RuleViolation) (hlen : strlen password < 2 ^ 31)
    (hfail : first_failure (spec_rules cfg password) = some v) :
    check_password host cfg username password PASSWORD_TYPE_PLAINTEXT vt vn = Rejected v := by
  rw [check_password_plaintext host cfg username password vt vn hlen, hfail]

/-- C2, witness: under the registered defaults "abcdefgh", which also lacks a
digit and a special character, is rejected with TooFewUpper(1). -/
theorem first_failure_reported_witness :
    (strlen (ascii "abcdefgh") < 2 ^ 31 ∧
      first_failure (spec_rules bootConfig (ascii "abcdefgh")) = some (TooFewUpper 1)) ∧
    num_in_class DIGIT_CHARS (ascii "abcdefgh") = 0 ∧
    num_in_class SPECIAL_CHARS (ascii "abcdefgh") = 0 ∧
    check_password plainHost bootConfig (ascii "alice") (ascii "abcdefgh")
      PASSWORD_TYPE_PLAINTEXT 0 true = Rejected (TooFewUpper 1) :=
  ⟨⟨by decide, by decide⟩, by decide, by decide,
   first_failure_reported plainHost bootConfig (ascii "alice") (ascii "abcdefgh") 0 true
     (TooFewUpper 1) (by decide) (by decide)⟩

/-- C3: for a configuration with `1 <= min_length <= max_length` and a
plaintext password whose length fits an `int`: if its length is
`min_length - 1` it is rejected with TooShort(min_length); if its length is
exactly `min_length`, the class minimums are met, no character is disallowed
and the oracle is off, it is approved. -/
theorem lower_length_boundary (host : Host) (cfg : PolicyConfig) (username password : CString)
    (vt : Nat) (vn : Bool) (hmin : 1 ≤ cfg.pwchkMinLength)
    (hle : cfg.pwchkMinLength ≤ cfg.pwchkMaxLength) (hlen : strlen password < 2 ^ 31) :
    ((strlen password : Int) = cfg.pwchkMinLength - 1 →
      check_password host cfg username password PASSWORD_TYPE_PLAINTEXT vt vn
        = Rejected (TooShort cfg.pwchkMinLength)) ∧
    ((strlen password : Int) = cfg.pwchkMinLength →
      (num_in_class LOWER_CASE_CHARS password : Int) ≥ cfg.pwchkMinLowerChar →
      (num_in_class UPPER_CASE_CHARS password : Int) ≥ cfg.pwchkMinUpperChar →
      (num_in_class DIGIT_CHARS password : Int) ≥ cfg.pwchkMinDigitChar →
      (num_in_class SPECIAL_CHARS password : Int) ≥ cfg.pwchkMinSpecialChar →
      num_in_class cfg.pwchkDisallowedChars password = 0 →
      (host.USE_CRACKLIB = false ∨ cfg.pwchkUseCracklib = false) →
      check_password host cfg username password PASSWORD_TYPE_PLAINTEXT vt vn = Approved) := by
  rw [check_password_plaintext host cfg username password vt vn hlen]
  constructor
  · intro h
    have h1 : ¬ cfg.pwchkMinLength ≤ (strlen password : Int) := by omega
    simp [first_failure, spec_rules, h1]
  · intro h hl hu hd hs hdis hor
    have hnone : first_failure (spec_rules cfg password) = none :=
      (first_failure_eq_none_iff cfg password).mpr
        ⟨by omega, by omega, hl, hu, hd, hs, hdis⟩
    rw [hnone]
    exact oracle_step_off host cfg password hor

/-- C3, witness: under the registered defaults (min_length 8) the 7-character
"Ab3!def" is rejected with TooShort(8), the 8-character "Ab3!defg" is
approved, and "Ab3!" is rejected with TooShort(8). -/
theorem lower_length_boundary_witness :
    (1 ≤ bootConfig.pwchkMinLength ∧ bootConfig.pwchkMinLength ≤ bootConfig.pwchkMaxLength ∧
      strlen (ascii "Ab3!def") < 2 ^ 31 ∧ strlen (ascii "Ab3!defg") < 2 ^ 31) ∧
    check_password plainHost bootConfig (ascii "alice") (ascii "Ab3!def")
      PASSWORD_TYPE_PLAINTEXT 0 true = Rejected (TooShort 8) ∧
    check_password plainHost bootConfig (ascii "alice") (ascii "Ab3!defg")
      PASSWORD_TYPE_PLAINTEXT 0 true = Approved ∧
    check_password plainHost bootConfig (ascii "alice") (ascii "Ab3!")
      PASSWORD_TYPE_PLAINTEXT 0 true = Rejected (TooShort 8) :=
  ⟨⟨by decide, by decide, by decide, by decide⟩,
   (lower_length_boundary plainHost bootConfig (ascii "alice") (ascii "Ab3!def") 0 true
      (by decide) (by decide) (by decide)).1 (by decide),
   (lower_length_boundary plainHost bootConfig (ascii "alice") (ascii "Ab3!defg") 0 true
      (by decide) (by decide) (by decide)).2 (by decide) (by decide) (by decide) (by decide)
      (by decide) (by decide) (Or.inl rfl),
   by decide⟩

/-- C4, as stated, fails: with `min_length = 8` and `max_length = 4`, both in
the registered ranges, the 5-character "Ab3!d" has length `max_length + 1` and
is rejected with TooShort(8), not with TooLong(4). -/
theorem too_long_not_reported_when_bounds_inverted :
    registeredRange invertedConfig ∧
    (strlen (ascii "Ab3!d") : Int) = invertedConfig.pwchkMaxLength + 1 ∧
    check_password plainHost invertedConfig (ascii "alice") (ascii "Ab3!d")
      PASSWORD_TYPE_PLAINTEXT 0 true = Rejected (TooShort 8) ∧
    check_password plainHost invertedConfig (ascii "alice") (ascii "Ab3!d")
      PASSWORD_TYPE_PLAINTEXT 0 true ≠ Rejected (TooLong invertedConfig.pwchkMaxLength) := by
  decide

/-- C4, amended: for every configuration in the registered ranges with
`min_length <= max_length + 1`, every plaintext password of length
`max_length + 1` is rejected with TooLong(max_length), whatever it is made of. -/
theorem upper_length_boundary (host : Host) (cfg : PolicyConfig) (username password : CString)
    (vt : Nat) (vn : Bool) (hrange : registeredRange cfg)
    (hmin : cfg.pwchkMinLength ≤ cfg.pwchkMaxLength + 1)
    (hlength : (strlen password : Int) = cfg.pwchkMaxLength + 1) :
    check_password host cfg username password PASSWORD_TYPE_PLAINTEXT vt vn
      = Rejected (TooLong cfg.pwchkMaxLength) := by
  have hlen : strlen password < 2 ^ 31 := by
    have := hrange.2.1.2
    omega
  rw [check_password_plaintext host cfg username password vt vn hlen]
  have h1 : cfg.pwchkMinLength ≤ (strlen password : Int) := by omega
  have h2 : ¬ (strlen password : Int) ≤ cfg.pwchkMaxLength := by omega
  simp [first_failure, spec_rules, h1, h2]

/-- C4, amended, witness: under the registered defaults a 33-character password
made of all four classes is rejected with TooLong(32). -/
theorem upper_length_boundary_witness :
    (registeredRange bootConfig ∧
      bootConfig.pwchkMinLength ≤ bootConfig.pwchkMaxLength + 1 ∧
      (strlen (ascii "Ab3!defgAb3!defgAb3!defgAb3!defgA") : Int)
        = bootConfig.pwchkMaxLength + 1) ∧
    check_password plainHost bootConfig (ascii "alice")
      (ascii "Ab3!defgAb3!defgAb3!defgAb3!defgA") PASSWORD_TYPE_PLAINTEXT 0 true
      = Rejected (TooLong 32) :=
  ⟨⟨by decide, by decide, by decide⟩,
   upper_length_boundary plainHost bootConfig (ascii "alice")
     (ascii "Ab3!defgAb3!defgAb3!defgAb3!defgA") 0 true (by decide) (by decide) (by decide)⟩

/-- C5: for a fixed credential, if `c'` differs from `c` only in that some of
`min_length`, `min_lower`, `min_upper`, `min_digit`, `min_special` are larger
in `c'`, then approval under `c'` gives approval under `c`. -/
theorem min_thresholds_monotone (host : Host) (c c' : PolicyConfig)
    (username shadow_pass : CString) (password_type : PasswordType) (vt : Nat) (vn : Bool)
    (hlength : c.pwchkMinLength ≤ c'.pwchkMinLength)
    (hlower : c.pwchkMinLowerChar ≤ c'.pwchkMinLowerChar)
    (hupper : c.pwchkMinUpperChar ≤ c'.pwchkMinUpperChar)
    (hdigit : c.pwchkMinDigitChar ≤ c'.pwchkMinDigitChar)
    (hspecial : c.pwchkMinSpecialChar ≤ c'.pwchkMinSpecialChar)
    (hmax : c'.pwchkMaxLength = c.pwchkMaxLength)
    (hdis : c'.pwchkDisallowedChars = c.pwchkDisallowedChars)
    (huse : c'.pwchkUseCracklib = c.pwchkUseCracklib)
    (happroved : check_password host c' username shadow_pass password_type vt vn = Approved) :
    check_password host c username shadow_pass password_type vt vn = Approved := by
  by_cases ht : password_type = PASSWORD_TYPE_PLAINTEXT
  · subst ht
    rw [check_password_plaintext_approved_iff] at happroved ⊢
    rw [hmax, hdis] at happroved
    obtain ⟨a1, a2, a3, a4, a5, a6, a7, a8⟩ := happroved
    refine ⟨by omega, a2, by omega, by omega, by omega, by omega, a7, ?_⟩
    unfold oracle_step at a8 ⊢
    rw [huse] at a8
    exact a8
  · unfold check_password at happroved ⊢
    simpa [ht] using happroved

/-- C5, witness: "Ab3!defgh" is approved with `min_length = 9` and with the
registered `min_length = 8`. -/
theorem min_thresholds_monotone_witness :
    (bootConfig.pwchkMinLength ≤ strictConfig.pwchkMinLength ∧
      bootConfig.pwchkMinLowerChar ≤ strictConfig.pwchkMinLowerChar ∧
      bootConfig.pwchkMinUpperChar ≤ strictConfig.pwchkMinUpperChar ∧
      bootConfig.pwchkMinDigitChar ≤ strictConfig.pwchkMinDigitChar ∧
      bootConfig.pwchkMinSpecialChar ≤ strictConfig.pwchkMinSpecialChar ∧
      strictConfig.pwchkMaxLength = bootConfig.pwchkMaxLength ∧
      strictConfig.pwchkDisallowedChars = bootConfig.pwchkDisallowedChars ∧
      strictConfig.pwchkUseCracklib = bootConfig.pwchkUseCracklib ∧
      check_password plainHost strictConfig (ascii "alice") (ascii "Ab3!defgh")
        PASSWORD_TYPE_PLAINTEXT 0 true = Approved) ∧
    check_password plainHost bootConfig (ascii "alice") (ascii "Ab3!defgh")
      PASSWORD_TYPE_PLAINTEXT 0 true = Approved :=
  ⟨⟨by decide, by decide, by decide, by decide, by decide, rfl, rfl, rfl, by decide⟩,
   min_thresholds_monotone plainHost bootConfig strictConfig
     (ascii "alice") (ascii "Ab3!defgh") PASSWORD_TYPE_PLAINTEXT 0 true
     (by decide) (by decide) (by decide) (by decide) (by decide) rfl rfl rfl (by decide)⟩

/-- C6: if a plaintext password (of a length that fits an `int`) is rejected
with ContainsDisallowed, so is every password whose characters are a
permutation of its characters. -/
theorem disallowed_rejection_perm (host : Host) (cfg : PolicyConfig)
    (username password permuted d : CString) (vt : Nat) (vn : Bool)
    (hlen : strlen password < 2 ^ 31) (hperm : (cstr permuted).Perm (cstr password))
    (hrej : check_password host cfg username password PASSWORD_TYPE_PLAINTEXT vt vn
      = Rejected (ContainsDisallowed d)) :
    check_password host cfg username permuted PASSWORD_TYPE_PLAINTEXT vt vn
      = Rejected (ContainsDisallowed d) := by
  have hlen' : strlen permuted < 2 ^ 31 := by rw [strlen_perm password permuted hperm]; exact hlen
  rw [check_password_plaintext host cfg username password vt vn hlen] at hrej
  rw [check_password_plaintext host cfg username permuted vt vn hlen',
    spec_rules_perm cfg password permuted hperm]
  cases hff : first_failure (spec_rules cfg password) with
  | some v => simpa [hff] using hrej
  | none =>
    rw [hff] at hrej
    exact absurd hrej (oracle_step_ne_disallowed host cfg password d)

/-- C6, witness: with the space disallowed, "Ab3! defg" and its permutation
"gfed !3bA" are both rejected with ContainsDisallowed(" "). -/
theorem disallowed_rejection_perm_witness :
    (strlen (ascii "Ab3! defg") < 2 ^ 31 ∧
      (cstr (ascii "gfed !3bA")).Perm (cstr (ascii "Ab3! defg")) ∧
      check_password plainHost spaceConfig (ascii "alice") (ascii "Ab3! defg")
        PASSWORD_TYPE_PLAINTEXT 0 true = Rejected (ContainsDisallowed (ascii " "))) ∧
    check_password plainHost spaceConfig (ascii "alice") (ascii "gfed !3bA")
      PASSWORD_TYPE_PLAINTEXT 0 true = Rejected (ContainsDisallowed (ascii " ")) :=
  ⟨⟨by decide, by decide, by decide⟩,
   disallowed_rejection_perm plainHost spaceConfig (ascii "alice") (ascii "Ab3! defg")
     (ascii "gfed !3bA") (ascii " ") 0 true (by decide) (by decide) (by decide)⟩

/-- C7: a plaintext password (of a length that fits an `int`) that holds a
character of `disallowed_chars` at some position is not approved, whatever the
configuration, the host and the class of that character. -/
theorem disallowed_never_approved (host : Host) (cfg : PolicyConfig)
    (username password : CString) (vt : Nat) (vn : Bool) (i : Nat)
    (hlen : strlen password < 2 ^ 31) (hi : i < strlen password)
    (hmem : charAt password i ∈ cstr cfg.pwchkDisallowedChars) :
    check_password host cfg username password PASSWORD_TYPE_PLAINTEXT vt vn ≠ Approved := by
  rw [check_password_plaintext host cfg username password vt vn hlen]
  have hpos := num_in_class_pos cfg.pwchkDisallowedChars password i hi hmem
  cases hff : first_failure (spec_rules cfg password) with
  | some v => simp
  | none => exact absurd ((first_failure_eq_none_iff cfg password).mp hff).2.2.2.2.2.2 hpos

/-- C7, witness: under the registered defaults with the space disallowed,
"Ab3! defg" (space at position 4) is rejected with ContainsDisallowed(" ");
with "!" disallowed, "Ab3!defg", whose only special character is "!", is
rejected with ContainsDisallowed("!"). -/
theorem disallowed_never_approved_witness :
    (strlen (ascii "Ab3! defg") < 2 ^ 31 ∧ 4 < strlen (ascii "Ab3! defg") ∧
      charAt (ascii "Ab3! defg") 4 ∈ cstr spaceConfig.pwchkDisallowedChars) ∧
    check_password plainHost spaceConfig (ascii "alice") (ascii "Ab3! defg")
      PASSWORD_TYPE_PLAINTEXT 0 true ≠ Approved ∧
    check_password plainHost spaceConfig (ascii "alice") (ascii "Ab3! defg")
      PASSWORD_TYPE_PLAINTEXT 0 true = Rejected (ContainsDisallowed (ascii " ")) ∧
    check_password plainHost bangConfig (ascii "alice") (ascii "Ab3!defg")
      PASSWORD_TYPE_PLAINTEXT 0 true = Rejected (ContainsDisallowed (ascii "!")) :=
  ⟨⟨by decide, by decide, by decide⟩,
   disallowed_never_approved plainHost spaceConfig (ascii "alice") (ascii "Ab3! defg") 0 true 4
     (by decide) (by decide) (by decide),
   by decide, by decide⟩

/-- C8: when the credential is not plaintext, `check_password` rejects with
PasswordEqualsUsername exactly when `plain_crypt_verify(username, shadow_pass,
username)` reports a match and approves otherwise, and the result is the same
under every configuration. -/
theorem encrypted_path (host : Host) (cfg cfg' : PolicyConfig) (username shadow_pass : CString)
    (password_type : PasswordType) (vt : Nat) (vn : Bool)
    (henc : password_type ≠ PASSWORD_TYPE_PLAINTEXT) :
    (check_password host cfg username shadow_pass password_type vt vn
        = Rejected PasswordEqualsUsername ↔
      host.plain_crypt_verify username shadow_pass username = true) ∧
    (host.plain_crypt_verify username shadow_pass username = false →
      check_password host cfg username shadow_pass password_type vt vn = Approved) ∧
    check_password host cfg' username shadow_pass password_type vt vn
      = check_password host cfg username shadow_pass password_type vt vn := by
  unfold check_password
  simp only [ne_eq, henc, not_false_eq_true, if_true]
  cases host.plain_crypt_verify username shadow_pass username <;> simp

/-- C8, witness: for a host whose verification matches when the stored form
is the candidate, the MD5-typed credential "alice" of the account "alice" is
rejected with PasswordEqualsUsername and the credentials "md5abc" and "md5xyz"
are both approved. -/
theorem encrypted_path_witness :
    PASSWORD_TYPE_MD5 ≠ PASSWORD_TYPE_PLAINTEXT ∧
    check_password dictHost bootConfig (ascii "alice") (ascii "alice") PASSWORD_TYPE_MD5 0 true
      = Rejected PasswordEqualsUsername ∧
    check_password dictHost bootConfig (ascii "alice") (ascii "md5abc") PASSWORD_TYPE_MD5 0 true
      = Approved ∧
    check_password dictHost bootConfig (ascii "alice") (ascii "md5xyz") PASSWORD_TYPE_MD5 0 true
      = Approved :=
  ⟨by decide,
   (encrypted_path dictHost bootConfig bootConfig (ascii "alice") (ascii "alice")
      PASSWORD_TYPE_MD5 0 true (by decide)).1.mpr (by decide),
   (encrypted_path dictHost bootConfig bootConfig (ascii "alice") (ascii "md5abc")
      PASSWORD_TYPE_MD5 0 true (by decide)).2.1 (by decide),
   (encrypted_path dictHost bootConfig bootConfig (ascii "alice") (ascii "md5xyz")
      PASSWORD_TYPE_MD5 0 true (by decide)).2.1 (by decide)⟩

/-- C9, as stated, fails: with cracklib compiled in and switched on, the
password "Password1!" of the account "Password1!" satisfies the length, class
and disallowed-character rules and is not approved: the oracle rejects it. -/
theorem username_password_rejected_by_oracle :
    first_failure (spec_rules cracklibConfig (ascii "Password1!")) = none ∧
    check_password dictHost cracklibConfig (ascii "Password1!") (ascii "Password1!")
      PASSWORD_TYPE_PLAINTEXT 0 true
      = Rejected (WeakOrDictionary (ascii "it is based on a dictionary word")) ∧
    check_password dictHost cracklibConfig (ascii "Password1!") (ascii "Password1!")
      PASSWORD_TYPE_PLAINTEXT 0 true ≠ Approved := by
  decide

/-- C9, amended: on the plaintext path the result is the same for every
account name and is never PasswordEqualsUsername; a password equal to the
account name (of a length that fits an `int`) is approved whenever it
satisfies the length, class and disallowed-character rules and the oracle is
not compiled in, is switched off, or reports nothing. -/
theorem plaintext_ignores_username (host : Host) (cfg : PolicyConfig)
    (username username' password : CString) (vt : Nat) (vn : Bool) :
    check_password host cfg username password PASSWORD_TYPE_PLAINTEXT vt vn
      = check_password host cfg username' password PASSWORD_TYPE_PLAINTEXT vt vn ∧
    check_password host cfg username password PASSWORD_TYPE_PLAINTEXT vt vn
      ≠ Rejected PasswordEqualsUsername ∧
    (strlen password < 2 ^ 31 →
      first_failure (spec_rules cfg password) = none →
      (host.USE_CRACKLIB = false ∨ cfg.pwchkUseCracklib = false ∨
        host.FascistCheck password = none) →
      check_password host cfg password password PASSWORD_TYPE_PLAINTEXT vt vn = Approved) := by
  refine ⟨?_, check_password_plaintext_ne_equals_username host cfg username password vt vn, ?_⟩
  · unfold check_password
    simp
  · intro hlen hnone hor
    rw [check_password_plaintext host cfg password password vt vn hlen, hnone]
    unfold oracle_step
    rcases hor with h | h | h <;> simp [h]

/-- C9, amended, witness: under the registered defaults the password
"Alice123!" is approved for the account "Alice123!" as for the account "bob";
with cracklib on, "Ab3!defg", which the oracle does not know, is approved for
the account "Ab3!defg". -/
theorem plaintext_ignores_username_witness :
    check_password plainHost bootConfig (ascii "Alice123!") (ascii "Alice123!")
      PASSWORD_TYPE_PLAINTEXT 0 true
      = check_password plainHost bootConfig (ascii "bob") (ascii "Alice123!")
        PASSWORD_TYPE_PLAINTEXT 0 true ∧
    check_password plainHost bootConfig (ascii "Alice123!") (ascii "Alice123!")
      PASSWORD_TYPE_PLAINTEXT 0 true = Approved ∧
    check_password dictHost cracklibConfig (ascii "Ab3!defg") (ascii "Ab3!defg")
      PASSWORD_TYPE_PLAINTEXT 0 true = Approved :=
  ⟨(plaintext_ignores_username plainHost bootConfig (ascii "Alice123!") (ascii "bob")
      (ascii "Alice123!") 0 true).1,
   (plaintext_ignores_username plainHost bootConfig (ascii "Alice123!") (ascii "bob")
      (ascii "Alice123!") 0 true).2.2 (by decide) (by decide) (Or.inl rfl),
   (plaintext_ignores_username dictHost cracklibConfig (ascii "Ab3!defg") (ascii "bob")
      (ascii "Ab3!defg") 0 true).2.2 (by decide) (by decide) (Or.inr (Or.inr (by decide)))⟩

/-- C10: with cracklib compiled in and `use_cracklib` on, for a plaintext
password whose length fits an `int`: if it passes rules 1-8, the result is
Rejected(WeakOrDictionary(r)) exactly when `FascistCheck` returns the reason
`r`, and Approved when it returns none; if a rule among 1-8 fails, the result
is that rule's rejection for every host, whatever its `FascistCheck` answers. -/
theorem oracle_is_last (host : Host) (cfg : PolicyConfig) (username password : CString)
    (vt : Nat) (vn : Bool) (hbuild : host.USE_CRACKLIB = true)
    (hflag : cfg.pwchkUseCracklib = true) (hlen : strlen password < 2 ^ 31) :
    (first_failure (spec_rules cfg password) = none →
      (∀ r, check_password host cfg username password PASSWORD_TYPE_PLAINTEXT vt vn
            = Rejected (WeakOrDictionary r) ↔ host.FascistCheck password = some r) ∧
      (host.FascistCheck password = none →
        check_password host cfg username password PASSWORD_TYPE_PLAINTEXT vt vn = Approved)) ∧
    (∀ v, first_failure (spec_rules cfg password) = some v →
      ∀ other : Host,
        check_password other cfg username password PASSWORD_TYPE_PLAINTEXT vt vn
          = Rejected v) := by
  constructor
  · intro hnone
    rw [check_password_plaintext host cfg username password vt vn hlen, hnone]
    unfold oracle_step
    cases hfc : host.FascistCheck password <;> simp [hbuild, hflag]
  · intro v hv other
    rw [check_password_plaintext other cfg username password vt vn hlen, hv]

/-- C10, witness: with cracklib on, "Password1!" passes rules 1-8 and is
rejected with the oracle's own reason, "Ab3!defg" is approved, and "abcdefgh"
is rejected with TooFewUpper(1). -/
theorem oracle_is_last_witness :
    (dictHost.USE_CRACKLIB = true ∧ cracklibConfig.pwchkUseCracklib = true ∧
      strlen (ascii "Password1!") < 2 ^ 31 ∧
      first_failure (spec_rules cracklibConfig (ascii "Password1!")) = none) ∧
    check_password dictHost cracklibConfig (ascii "alice") (ascii "Password1!")
      PASSWORD_TYPE_PLAINTEXT 0 true
      = Rejected (WeakOrDictionary (ascii "it is based on a dictionary word")) ∧
    check_password dictHost cracklibConfig (ascii "alice") (ascii "Ab3!defg")
      PASSWORD_TYPE_PLAINTEXT 0 true = Approved ∧
    check_password dictHost cracklibConfig (ascii "alice") (ascii "abcdefgh")
      PASSWORD_TYPE_PLAINTEXT 0 true = Rejected (TooFewUpper 1) :=
  ⟨⟨rfl, rfl, by decide, by decide⟩,
   (((oracle_is_last dictHost cracklibConfig (ascii "alice") (ascii "Password1!") 0 true
      rfl rfl (by decide)).1 (by decide)).1 _).mpr (by decide),
   ((oracle_is_last dictHost cracklibConfig (ascii "alice") (ascii "Ab3!defg") 0 true
      rfl rfl (by decide)).1 (by decide)).2 (by decide),
   (oracle_is_last dictHost cracklibConfig (ascii "alice") (ascii "abcdefgh") 0 true
      rfl rfl (by decide)).2 _ (by decide) dictHost⟩

/-! ## The loop on any password -/

theorem int_of_size_t_toNat_le (n : Nat) : (int_of_size_t n).toNat ≤ n := by
  have hmod : n % 2 ^ 32 ≤ n := Nat.mod_le n _
  have hlt : n % 2 ^ 32 < 2 ^ 32 := Nat.mod_lt n (by norm_num)
  unfold int_of_size_t
  split_ifs with h
  · rw [Int.toNat_ofNat]
    exact hmod
  · have : ((n % 2 ^ 32 : Nat) : Int) - 2 ^ 32 ≤ 0 := by omega
    rw [Int.toNat_eq_zero.mpr this]
    exact Nat.zero_le n

theorem class_sets_pairwise_disjoint :
    (∀ b ∈ cstr UPPER_CASE_CHARS, b ∉ cstr LOWER_CASE_CHARS) ∧
    (∀ b ∈ cstr UPPER_CASE_CHARS, b ∉ cstr DIGIT_CHARS) ∧
    (∀ b ∈ cstr UPPER_CASE_CHARS, b ∉ cstr SPECIAL_CHARS) ∧
    (∀ b ∈ cstr LOWER_CASE_CHARS, b ∉ cstr DIGIT_CHARS) ∧
    (∀ b ∈ cstr LOWER_CASE_CHARS, b ∉ cstr SPECIAL_CHARS) ∧
    (∀ b ∈ cstr DIGIT_CHARS, b ∉ cstr SPECIAL_CHARS) := by
  decide

/-- A character other than the terminator is found in at most one of the four
class strings. -/
theorem strchr_classes_le_one (ch : Nat) (hch : ch ≠ 0) :
    (if strchr LOWER_CASE_CHARS ch then 1 else 0) + (if strchr UPPER_CASE_CHARS ch then 1 else 0)
      + (if strchr DIGIT_CHARS ch then 1 else 0) + (if strchr SPECIAL_CHARS ch then 1 else 0)
      ≤ 1 := by
  obtain ⟨hul, hud, hus, hld, hls, hds⟩ := class_sets_pairwise_disjoint
  have hiff : ∀ cls : CString, strchr cls ch = true ↔ ch ∈ cstr cls := by
    intro cls
    rw [strchr_iff]
    simp [hch]
  by_cases hl : strchr LOWER_CASE_CHARS ch = true
  · have hl' := (hiff _).mp hl
    have hu : ¬ strchr UPPER_CASE_CHARS ch = true := fun h => hul ch ((hiff _).mp h) hl'
    have hd : ¬ strchr DIGIT_CHARS ch = true := fun h => hld ch hl' ((hiff _).mp h)
    have hs : ¬ strchr SPECIAL_CHARS ch = true := fun h => hls ch hl' ((hiff _).mp h)
    simp [hl, hu, hd, hs]
  · by_cases hu : strchr UPPER_CASE_CHARS ch = true
    · have hu' := (hiff _).mp hu
      have hd : ¬ strchr DIGIT_CHARS ch = true := fun h => hud ch hu' ((hiff _).mp h)
      have hs : ¬ strchr SPECIAL_CHARS ch = true := fun h => hus ch hu' ((hiff _).mp h)
      simp [hl, hu, hd, hs]
    · by_cases hd : strchr DIGIT_CHARS ch = true
      · have hs : ¬ strchr SPECIAL_CHARS ch = true :=
          fun h => hds ch ((hiff _).mp hd) ((hiff _).mp h)
        simp [hl, hu, hd, hs]
      · by_cases hs : strchr SPECIAL_CHARS ch = true <;> simp [hl, hu, hd, hs]

theorem hits_classes_le (p : CString) (n i : Nat) (h : i + n ≤ strlen p) :
    hits (strchr LOWER_CASE_CHARS) p i n + hits (strchr UPPER_CASE_CHARS) p i n
      + hits (strchr DIGIT_CHARS) p i n + hits (strchr SPECIAL_CHARS) p i n ≤ n := by
  induction n generalizing i with
  | zero => simp [hits]
  | succ n ih =>
    have hstep := strchr_classes_le_one (charAt p i) (charAt_ne_zero p i (by omega))
    have hrest := ih (i + 1) (by omega)
    simp only [hits_succ]
    omega

/-- The four class counters of the code add up to at most the number of
iterations of its loop, hence to at most `strlen`. -/
theorem counters_after_loop_sum_le (cfg : PolicyConfig) (p : CString) :
    (counters_after_loop cfg p).num_lower + (counters_after_loop cfg p).num_upper
      + (counters_after_loop cfg p).num_digit + (counters_after_loop cfg p).num_special
      ≤ ((int_of_size_t (strlen p)).toNat : Int) := by
  unfold counters_after_loop
  rw [classify_loop_eq]
  have h := hits_classes_le p (int_of_size_t (strlen p)).toNat 0
    (by have := int_of_size_t_toNat_le (strlen p); omega)
  simp only [Counters.zero, zero_add]
  exact_mod_cast h

theorem hits_strchr_le (cls p : CString) (n : Nat) (h : n ≤ strlen p) :
    hits (strchr cls) p 0 n
      = ((List.range n).filter (fun i => decide (charAt p i ∈ cstr cls))).length := by
  unfold hits
  rw [← List.range_eq_range', List.countP_eq_length_filter]
  congr 1
  apply List.filter_congr
  intro j hj
  have hj' : j < strlen p := by have := List.mem_range.mp hj; omega
  have hne := charAt_ne_zero p j hj'
  rw [Bool.eq_iff_iff, strchr_iff]
  simp [hne]

/-- With an empty `disallowed_chars` the loop of the code leaves
`num_disallowed` at 0, whatever the length of the password. -/
theorem counters_after_loop_disallowed_empty (cfg : PolicyConfig) (p : CString)
    (hempty : strlen cfg.pwchkDisallowedChars = 0) :
    (counters_after_loop cfg p).num_disallowed = 0 := by
  have hnil : cstr cfg.pwchkDisallowedChars = [] := by
    rw [strlen_eq_length_cstr] at hempty
    exact List.length_eq_zero.mp hempty
  unfold counters_after_loop
  rw [classify_loop_eq]
  simp only [Counters.zero, zero_add]
  rw [hits_strchr_le _ _ _ (int_of_size_t_toNat_le (strlen p)), hnil]
  simp

/-- A ContainsDisallowed rejection comes from a positive `num_disallowed`. -/
theorem check_password_disallowed_imp (host : Host) (cfg : PolicyConfig)
    (username password d : CString) (password_type : PasswordType) (vt : Nat) (vn : Bool)
    (h : check_password host cfg username password password_type vt vn
      = Rejected (ContainsDisallowed d)) :
    0 < (counters_after_loop cfg password).num_disallowed := by
  by_cases ht : password_type = PASSWORD_TYPE_PLAINTEXT
  swap
  · unfold check_password at h
    simp only [ne_eq, ht, not_false_eq_true, if_true] at h
    split_ifs at h
    cases h
  subst ht
  unfold check_password at h
  simp only [ne_eq, not_true_eq_false, if_false] at h
  unfold counters_after_loop
  generalize int_of_size_t (strlen password) = pwdlen at h ⊢
  generalize classify_loop cfg.pwchkDisallowedChars password pwdlen.toNat 0 Counters.zero = c
    at h ⊢
  by_contra hc
  split_ifs at h
  all_goals first
    | exact hc (by assumption)
    | cases h
    | (cases hfc : host.FascistCheck password <;> rw [hfc] at h <;> cases h)

/-- With the oracle not compiled in or switched off, `check_password` never
looks at `FascistCheck`. -/
theorem check_password_oracle_off (host : Host) (cfg : PolicyConfig)
    (username shadow_pass : CString) (password_type : PasswordType) (vt : Nat) (vn : Bool)
    (f : CString → Option CString)
    (hoff : host.USE_CRACKLIB = false ∨ cfg.pwchkUseCracklib = false) :
    check_password { host with FascistCheck := f } cfg username shadow_pass password_type vt vn
      = check_password host cfg username shadow_pass password_type vt vn := by
  unfold check_password
  rcases hoff with h | h <;> simp [h]

theorem check_password_oracle_off_ne_weak (host : Host) (cfg : PolicyConfig)
    (username shadow_pass r : CString) (password_type : PasswordType) (vt : Nat) (vn : Bool)
    (hoff : host.USE_CRACKLIB = false ∨ cfg.pwchkUseCracklib = false) :
    check_password host cfg username shadow_pass password_type vt vn
      ≠ Rejected (WeakOrDictionary r) := by
  have hcond : (host.USE_CRACKLIB && cfg.pwchkUseCracklib) = false := by
    rcases hoff with h | h <;> simp [h]
  intro hweak
  by_cases ht : password_type = PASSWORD_TYPE_PLAINTEXT
  swap
  · unfold check_password at hweak
    simp only [ne_eq, ht, not_false_eq_true, if_true] at hweak
    split_ifs at hweak
    cases hweak
  subst ht
  unfold check_password at hweak
  simp only [ne_eq, not_true_eq_false, if_false, hcond, Bool.false_eq_true] at hweak
  generalize int_of_size_t (strlen shadow_pass) = pwdlen at hweak
  generalize classify_loop cfg.pwchkDisallowedChars shadow_pass pwdlen.toNat 0 Counters.zero = c
    at hweak
  split_ifs at hweak <;> cases hweak

/-! ## The claims, continued -/

/-- C11: when `use_cracklib` is off, or the module is built without cracklib
(whatever the flag), the result of `check_password` is the same whatever
`FascistCheck` would answer, is never WeakOrDictionary, and on the plaintext
path (for a password whose length fits an `int`) is the outcome of rules 1-8
alone. -/
theorem oracle_off_is_noop (host : Host) (cfg : PolicyConfig) (username shadow_pass : CString)
    (password_type : PasswordType) (vt : Nat) (vn : Bool)
    (hoff : host.USE_CRACKLIB = false ∨ cfg.pwchkUseCracklib = false) :
    (∀ f : CString → Option CString,
      check_password { host with FascistCheck := f } cfg username shadow_pass password_type vt vn
        = check_password host cfg username shadow_pass password_type vt vn) ∧
    (∀ r, check_password host cfg username shadow_pass password_type vt vn
      ≠ Rejected (WeakOrDictionary r)) ∧
    (strlen shadow_pass < 2 ^ 31 →
      check_password host cfg username shadow_pass PASSWORD_TYPE_PLAINTEXT vt vn
        = rules_1_to_8 cfg shadow_pass) := by
  refine ⟨fun f => check_password_oracle_off host cfg username shadow_pass password_type vt vn
      f hoff,
    fun r => check_password_oracle_off_ne_weak host cfg username shadow_pass r password_type
      vt vn hoff, ?_⟩
  intro hlen
  rw [check_password_plaintext host cfg username shadow_pass vt vn hlen,
    oracle_step_off host cfg shadow_pass hoff]
  rfl

/-- C11, witness: "Password1!", which the oracle of `dictHost` knows, is
approved when `use_cracklib` is off, and also when the flag is on in a build
without cracklib; in both cases this is the outcome of rules 1-8. -/
theorem oracle_off_is_noop_witness :
    ((dictHost.USE_CRACKLIB = false ∨ bootConfig.pwchkUseCracklib = false) ∧
      (plainHost.USE_CRACKLIB = false ∨ cracklibConfig.pwchkUseCracklib = false) ∧
      strlen (ascii "Password1!") < 2 ^ 31) ∧
    dictHost.FascistCheck (ascii "Password1!") ≠ none ∧
    check_password dictHost bootConfig (ascii "alice") (ascii "Password1!")
      PASSWORD_TYPE_PLAINTEXT 0 true = rules_1_to_8 bootConfig (ascii "Password1!") ∧
    rules_1_to_8 bootConfig (ascii "Password1!") = Approved ∧
    check_password plainHost cracklibConfig (ascii "alice") (ascii "Password1!")
      PASSWORD_TYPE_PLAINTEXT 0 true = rules_1_to_8 cracklibConfig (ascii "Password1!") ∧
    rules_1_to_8 cracklibConfig (ascii "Password1!") = Approved :=
  ⟨⟨Or.inr rfl, Or.inl rfl, by decide⟩, by decide,
   (oracle_off_is_noop dictHost bootConfig (ascii "alice") (ascii "Password1!")
      PASSWORD_TYPE_PLAINTEXT 0 true (Or.inr rfl)).2.2 (by decide),
   by decide,
   (oracle_off_is_noop plainHost cracklibConfig (ascii "alice") (ascii "Password1!")
      PASSWORD_TYPE_PLAINTEXT 0 true (Or.inl rfl)).2.2 (by decide),
   by decide⟩

/-- C12: when the operator has set nothing, the variables hold, once
`_PG_init` has run (and only then is the hook installed), min_length 8,
max_length 32, the four class minimums 1, an empty `disallowed_chars` and
`use_cracklib` off; every plaintext password of 33 characters is then rejected
with TooLong(32). -/
theorem default_configuration (g : GucHost) (host : Host) (username password : CString)
    (vt : Nat) (vn : Bool) (hunset : g.nothingSet) :
    (_PG_init g loaded).vars =
      { pwchkMinLength := 8
        pwchkMaxLength := 32
        pwchkMinLowerChar := 1
        pwchkMinUpperChar := 1
        pwchkMinDigitChar := 1
        pwchkMinSpecialChar := 1
        pwchkDisallowedChars := []
        pwchkUseCracklib := false } ∧
    call_hook loaded host username password PASSWORD_TYPE_PLAINTEXT vt vn = none ∧
    (strlen password = 33 →
      call_hook (_PG_init g loaded) host username password PASSWORD_TYPE_PLAINTEXT vt vn
        = some (Rejected (TooLong 32))) := by
  obtain ⟨hint, hstr, hbool⟩ := hunset
  have hvars : (_PG_init g loaded).vars = bootConfig := by
    simp [_PG_init, hint, hstr, hbool, bootConfig]
  refine ⟨by rw [hvars]; rfl, rfl, ?_⟩
  intro h33
  have hlen : strlen password < 2 ^ 31 := by omega
  have hhook : (_PG_init g loaded).check_password_hook = true := rfl
  unfold call_hook
  rw [hhook, hvars, if_pos rfl, check_password_plaintext host bootConfig username password vt vn hlen]
  simp [first_failure, spec_rules, bootConfig, h33]

/-- C12, witness: with nothing set, a 33-character password holding all four
classes is rejected with TooLong(32) after `_PG_init`. -/
theorem default_configuration_witness :
    untouchedGuc.nothingSet ∧
    strlen (ascii "Ab3!defgAb3!defgAb3!defgAb3!defgA") = 33 ∧
    first_failure (spec_rules { bootConfig with pwchkMaxLength := 33 }
      (ascii "Ab3!defgAb3!defgAb3!defgAb3!defgA")) = none ∧
    call_hook (_PG_init untouchedGuc loaded) plainHost (ascii "alice")
      (ascii "Ab3!defgAb3!defgAb3!defgAb3!defgA") PASSWORD_TYPE_PLAINTEXT 0 true
      = some (Rejected (TooLong 32)) :=
  ⟨⟨fun _ _ _ => rfl, fun _ => rfl, fun _ => rfl⟩, by decide, by decide,
   (default_configuration untouchedGuc plainHost (ascii "alice")
      (ascii "Ab3!defgAb3!defgAb3!defgAb3!defgA") 0 true
      ⟨fun _ _ _ => rfl, fun _ => rfl, fun _ => rfl⟩).2.2 (by decide)⟩

/-- The string `SPECIAL_CHARS` holds the UTF-8 bytes of the listed characters. -/
theorem SPECIAL_CHARS_eq_utf8 :
    SPECIAL_CHARS = special_set.foldr (fun c bytes => utf8_bytes c ++ bytes) [] := by
  decide

/-- C13, the code at failing inputs: under the registered defaults the text of
20 characters "e acute" (40 bytes) is rejected with TooLong(32), and the text
"Ab3!" followed by two "e acute" (6 characters, 8 bytes) is approved: the
length the code compares is the number of bytes. -/
theorem length_is_counted_in_bytes :
    text_length "éééééééééééééééééééé" = 20 ∧
    strlen (utf8 "éééééééééééééééééééé") = 40 ∧
    check_password plainHost bootConfig (ascii "alice") (utf8 "éééééééééééééééééééé")
      PASSWORD_TYPE_PLAINTEXT 0 true = Rejected (TooLong 32) ∧
    text_length "Ab3!éé" = 6 ∧
    strlen (utf8 "Ab3!éé") = 8 ∧
    check_password plainHost bootConfig (ascii "alice") (utf8 "Ab3!éé")
      PASSWORD_TYPE_PLAINTEXT 0 true = Approved := by
  decide

/-- C14, the code at failing inputs: the listed character "e acute" adds 2 to
`num_special`, and "o diaeresis", which is not listed, adds 1, so that
"Ab3" + "o diaeresis" + "efgh", which holds no listed special character, is
approved under the registered defaults (min_special 1). -/
theorem special_is_counted_in_bytes :
    text_count is_listed_special "é" = 1 ∧
    (counters_after_loop bootConfig (utf8 "é")).num_special = 2 ∧
    text_count is_listed_special "ö" = 0 ∧
    (counters_after_loop bootConfig (utf8 "ö")).num_special = 1 ∧
    text_count is_listed_special "Ab3öefgh" = 0 ∧
    (counters_after_loop bootConfig (utf8 "Ab3öefgh")).num_special = 1 ∧
    check_password plainHost bootConfig (ascii "alice") (utf8 "Ab3öefgh")
      PASSWORD_TYPE_PLAINTEXT 0 true = Approved := by
  decide

/-- C15: no byte occurs in two of the four class strings; at every position of
the password the loop body raises the sum of the four class counters by at
most 1; and the four counters, as the code computes them and as the
specification counts them, add up to at most `strlen` of the password. -/
theorem class_sets_disjoint (cfg : PolicyConfig) (password : CString) :
    ((∀ b ∈ cstr UPPER_CASE_CHARS, b ∉ cstr LOWER_CASE_CHARS) ∧
      (∀ b ∈ cstr UPPER_CASE_CHARS, b ∉ cstr DIGIT_CHARS) ∧
      (∀ b ∈ cstr UPPER_CASE_CHARS, b ∉ cstr SPECIAL_CHARS) ∧
      (∀ b ∈ cstr LOWER_CASE_CHARS, b ∉ cstr DIGIT_CHARS) ∧
      (∀ b ∈ cstr LOWER_CASE_CHARS, b ∉ cstr SPECIAL_CHARS) ∧
      (∀ b ∈ cstr DIGIT_CHARS, b ∉ cstr SPECIAL_CHARS)) ∧
    (∀ (i : Nat) (c : Counters), i < strlen password →
      (classify_char cfg.pwchkDisallowedChars (charAt password i) c).num_lower
        + (classify_char cfg.pwchkDisallowedChars (charAt password i) c).num_upper
        + (classify_char cfg.pwchkDisallowedChars (charAt password i) c).num_digit
        + (classify_char cfg.pwchkDisallowedChars (charAt password i) c).num_special
        ≤ c.num_lower + c.num_upper + c.num_digit + c.num_special + 1) ∧
    ((counters_after_loop cfg password).num_lower + (counters_after_loop cfg password).num_upper
        + (counters_after_loop cfg password).num_digit
        + (counters_after_loop cfg password).num_special ≤ (strlen password : Int)) ∧
    (num_in_class LOWER_CASE_CHARS password + num_in_class UPPER_CASE_CHARS password
        + num_in_class DIGIT_CHARS password + num_in_class SPECIAL_CHARS password
        ≤ strlen password) := by
  refine ⟨class_sets_pairwise_disjoint, ?_, ?_, ?_⟩
  · intro i c hi
    have h := strchr_classes_le_one (charAt password i) (charAt_ne_zero password i hi)
    simp only [classify_char]
    split_ifs at h ⊢ <;> omega
  · have h := counters_after_loop_sum_le cfg password
    have hle := int_of_size_t_toNat_le (strlen password)
    omega
  · have h := hits_classes_le password (strlen password) 0 (by omega)
    simp only [hits_strchr] at h
    exact h

/-- C16: for a plaintext password whose length fits an `int`: if
`min_lower + min_upper + min_digit + min_special > max_length` the password is
rejected; and an approved password has a length of at least `min_length` and
at least `min_lower + min_upper + min_digit + min_special`. -/
theorem unsatisfiable_minimums (host : Host) (cfg : PolicyConfig) (username password : CString)
    (vt : Nat) (vn : Bool) (hlen : strlen password < 2 ^ 31) :
    (cfg.pwchkMinLowerChar + cfg.pwchkMinUpperChar + cfg.pwchkMinDigitChar
        + cfg.pwchkMinSpecialChar > cfg.pwchkMaxLength →
      ∃ v, check_password host cfg username password PASSWORD_TYPE_PLAINTEXT vt vn
        = Rejected v) ∧
    (check_password host cfg username password PASSWORD_TYPE_PLAINTEXT vt vn = Approved →
      (strlen password : Int) ≥ max cfg.pwchkMinLength
        (cfg.pwchkMinLowerChar + cfg.pwchkMinUpperChar + cfg.pwchkMinDigitChar
          + cfg.pwchkMinSpecialChar)) := by
  have happ : check_password host cfg username password PASSWORD_TYPE_PLAINTEXT vt vn
      = Approved →
      cfg.pwchkMinLength ≤ (strlen password : Int) ∧
      (strlen password : Int) ≤ cfg.pwchkMaxLength ∧
      cfg.pwchkMinLowerChar + cfg.pwchkMinUpperChar + cfg.pwchkMinDigitChar
        + cfg.pwchkMinSpecialChar ≤ (strlen password : Int) := by
    intro h
    rw [check_password_plaintext_approved_iff, int_of_size_t_of_lt _ hlen] at h
    obtain ⟨a1, a2, a3, a4, a5, a6, _, _⟩ := h
    have hsum := counters_after_loop_sum_le cfg password
    unfold counters_after_loop at hsum
    rw [int_of_size_t_of_lt _ hlen, Int.toNat_ofNat] at hsum
    rw [Int.toNat_ofNat] at a3 a4 a5 a6
    refine ⟨a1, a2, ?_⟩
    omega
  constructor
  · intro hgt
    cases hres : check_password host cfg username password PASSWORD_TYPE_PLAINTEXT vt vn with
    | Approved =>
      obtain ⟨_, b2, b3⟩ := happ hres
      omega
    | Rejected v => exact ⟨v, rfl⟩
  · intro h
    obtain ⟨b1, _, b3⟩ := happ h
    exact max_le b1 b3

/-- C16, witness: with the four class minimums at 64 and max_length 128, both
in the registered ranges, a password is rejected; and the approved "Ab3!defg"
is at least as long as `min_length` and as the sum of the class minimums. -/
theorem unsatisfiable_minimums_witness :
    (strlen (ascii "Ab3!defg") < 2 ^ 31 ∧ registeredRange greedyConfig ∧
      greedyConfig.pwchkMinLowerChar + greedyConfig.pwchkMinUpperChar
        + greedyConfig.pwchkMinDigitChar + greedyConfig.pwchkMinSpecialChar
        > greedyConfig.pwchkMaxLength ∧
      check_password plainHost bootConfig (ascii "alice") (ascii "Ab3!defg")
        PASSWORD_TYPE_PLAINTEXT 0 true = Approved) ∧
    (∃ v, check_password plainHost greedyConfig (ascii "alice") (ascii "Ab3!defg")
      PASSWORD_TYPE_PLAINTEXT 0 true = Rejected v) ∧
    (strlen (ascii "Ab3!defg") : Int) ≥ max bootConfig.pwchkMinLength
      (bootConfig.pwchkMinLowerChar + bootConfig.pwchkMinUpperChar
        + bootConfig.pwchkMinDigitChar + bootConfig.pwchkMinSpecialChar) :=
  ⟨⟨by decide, by decide, by decide, by decide⟩,
   (unsatisfiable_minimums plainHost greedyConfig (ascii "alice") (ascii "Ab3!defg") 0 true
      (by decide)).1 (by decide),
   (unsatisfiable_minimums plainHost bootConfig (ascii "alice") (ascii "Ab3!defg") 0 true
      (by decide)).2 (by decide)⟩

/-- C17: a configuration with `min_length > max_length` lies in the registered
ranges, and under every such configuration a plaintext password (of a length
that fits an `int`) is rejected with TooShort(min_length) when its length is
below `min_length` and with TooLong(max_length) otherwise; it is never
approved. -/
theorem inverted_bounds_reject_all (host : Host) (cfg : PolicyConfig)
    (username password : CString) (vt : Nat) (vn : Bool)
    (hinv : cfg.pwchkMinLength > cfg.pwchkMaxLength) (hlen : strlen password < 2 ^ 31) :
    ((strlen password : Int) < cfg.pwchkMinLength →
      check_password host cfg username password PASSWORD_TYPE_PLAINTEXT vt vn
        = Rejected (TooShort cfg.pwchkMinLength)) ∧
    (¬ (strlen password : Int) < cfg.pwchkMinLength →
      check_password host cfg username password PASSWORD_TYPE_PLAINTEXT vt vn
        = Rejected (TooLong cfg.pwchkMaxLength)) ∧
    check_password host cfg username password PASSWORD_TYPE_PLAINTEXT vt vn ≠ Approved ∧
    (∃ c : PolicyConfig, registeredRange c ∧ c.pwchkMinLength > c.pwchkMaxLength) := by
  rw [check_password_plaintext host cfg username password vt vn hlen]
  have hshort : (strlen password : Int) < cfg.pwchkMinLength →
      first_failure (spec_rules cfg password) = some (TooShort cfg.pwchkMinLength) := by
    intro h
    have h1 : ¬ cfg.pwchkMinLength ≤ (strlen password : Int) := by omega
    simp [first_failure, spec_rules, h1]
  have hlong : ¬ (strlen password : Int) < cfg.pwchkMinLength →
      first_failure (spec_rules cfg password) = some (TooLong cfg.pwchkMaxLength) := by
    intro h
    have h1 : cfg.pwchkMinLength ≤ (strlen password : Int) := by omega
    have h2 : ¬ (strlen password : Int) ≤ cfg.pwchkMaxLength := by omega
    simp [first_failure, spec_rules, h1, h2]
  refine ⟨fun h => by rw [hshort h], fun h => by rw [hlong h], ?_,
    ⟨invertedConfig, by decide, by decide⟩⟩
  by_cases h : (strlen password : Int) < cfg.pwchkMinLength
  · rw [hshort h]; simp
  · rw [hlong h]; simp

/-- C17, witness: with min_length 8 and max_length 4, "Ab3!d" is rejected
with TooShort(8) and "Ab3!defg" with TooLong(4). -/
theorem inverted_bounds_reject_all_witness :
    (invertedConfig.pwchkMinLength > invertedConfig.pwchkMaxLength ∧
      strlen (ascii "Ab3!d") < 2 ^ 31 ∧ strlen (ascii "Ab3!defg") < 2 ^ 31) ∧
    check_password plainHost invertedConfig (ascii "alice") (ascii "Ab3!d")
      PASSWORD_TYPE_PLAINTEXT 0 true = Rejected (TooShort 8) ∧
    check_password plainHost invertedConfig (ascii "alice") (ascii "Ab3!defg")
      PASSWORD_TYPE_PLAINTEXT 0 true = Rejected (TooLong 4) :=
  ⟨⟨by decide, by decide, by decide⟩,
   (inverted_bounds_reject_all plainHost invertedConfig (ascii "alice") (ascii "Ab3!d") 0 true
      (by decide) (by decide)).1 (by decide),
   (inverted_bounds_reject_all plainHost invertedConfig (ascii "alice") (ascii "Ab3!defg") 0
      true (by decide) (by decide)).2.1 (by decide)⟩

/-- C18: when `disallowed_chars` is the empty string, then for every password:
every position below `strlen` holds a non-zero byte, which `strchr` does not
find in the empty string (while it would find the terminator, 0); the code's
`num_disallowed` and the specification's count are 0; and `check_password`
never rejects with ContainsDisallowed. -/
theorem empty_disallowed_never_rejects (host : Host) (cfg : PolicyConfig)
    (username password : CString) (vt : Nat) (vn : Bool)
    (hempty : strlen cfg.pwchkDisallowedChars = 0) :
    (∀ i, i < strlen password →
      charAt password i ≠ 0 ∧ strchr cfg.pwchkDisallowedChars (charAt password i) = false) ∧
    strchr cfg.pwchkDisallowedChars 0 = true ∧
    (counters_after_loop cfg password).num_disallowed = 0 ∧
    num_in_class cfg.pwchkDisallowedChars password = 0 ∧
    (∀ d, check_password host cfg username password PASSWORD_TYPE_PLAINTEXT vt vn
      ≠ Rejected (ContainsDisallowed d)) := by
  have hnil : cstr cfg.pwchkDisallowedChars = [] := by
    rw [strlen_eq_length_cstr] at hempty
    exact List.length_eq_zero.mp hempty
  have hzero := counters_after_loop_disallowed_empty cfg password hempty
  refine ⟨?_, ?_, hzero, ?_, ?_⟩
  · intro i hi
    have hne := charAt_ne_zero password i hi
    refine ⟨hne, ?_⟩
    rw [Bool.eq_false_iff, ne_eq, strchr_iff, hnil]
    simp [hne]
  · rw [strchr_iff]
    exact Or.inr rfl
  · unfold num_in_class
    rw [hnil]
    simp
  · intro d hrej
    have hpos := check_password_disallowed_imp host cfg username password d
      PASSWORD_TYPE_PLAINTEXT vt vn hrej
    omega

/-- C18, witness: under the registered defaults (`disallowed_chars` empty)
"Ab3! defg" is approved, and the loop has counted no disallowed character. -/
theorem empty_disallowed_never_rejects_witness :
    strlen bootConfig.pwchkDisallowedChars = 0 ∧
    (counters_after_loop bootConfig (ascii "Ab3! defg")).num_disallowed = 0 ∧
    check_password plainHost bootConfig (ascii "alice") (ascii "Ab3! defg")
      PASSWORD_TYPE_PLAINTEXT 0 true
      ≠ Rejected (ContainsDisallowed bootConfig.pwchkDisallowedChars) ∧
    check_password plainHost bootConfig (ascii "alice") (ascii "Ab3! defg")
      PASSWORD_TYPE_PLAINTEXT 0 true = Approved :=
  ⟨rfl,
   (empty_disallowed_never_rejects plainHost bootConfig (ascii "alice") (ascii "Ab3! defg") 0
      true rfl).2.2.1,
   (empty_disallowed_never_rejects plainHost bootConfig (ascii "alice") (ascii "Ab3! defg") 0
      true rfl).2.2.2.2 _,
   by decide⟩

end PasswordCheck
